import Mathlib

/-!
Verification of the exam-session core of the SmartHomework application:
the answer store, exam navigation state machine, countdown timer,
submission builder, grading-result reduction (`gradeSubmission` in
`services/geminiService.ts`) and the two MCQ answer-key resolvers
(`getMCQText` in the result-analysis component and `getAnswerDisplay`
in the student-exam component).

JavaScript string-keyed objects are modelled as insertion-ordered
association lists with unique keys (`StrMap`); `undefined` / missing
fields are modelled as `Option`; JavaScript truthiness on strings
(`""` and `undefined` falsy) and on numbers is made explicit.
Scores are modelled as rationals; `Number.prototype.toFixed(1)`
followed by `parseFloat` is modelled as exact rational rounding to one
decimal place, half upward (the two agree on every value these claims
evaluate).
-/

namespace SmartHomework

/-- A JavaScript object with string keys and string values:
an insertion-ordered association list.  `assignKey` models
`obj[k] = v` (overwrite in place, or append a fresh key at the end),
which is also the effect of the spread update `{ ...prev, [k]: v }`. -/
abbrev StrMap := List (String × String)

/-- Model of `obj[k] = v` / `{ ...prev, [k]: v }` on a string map. -/
def assignKey : StrMap → String → String → StrMap
  | [], k, v => [(k, v)]
  | (k', v') :: rest, k, v =>
      if k' = k then (k, v) :: rest else (k', v') :: assignKey rest k v

/-- Model of `obj[k]`: `some v` when the key is present, `none` for
`undefined`. -/
def lookupKey : StrMap → String → Option String
  | [], _ => none
  | (k', v') :: rest, k => if k' = k then some v' else lookupKey rest k

/-- The key set of a string map, as a list: `Object.keys(obj)`. -/
def recKeys (m : StrMap) : List String := m.map Prod.fst

/-- JavaScript truthiness of a possibly-missing string:
`undefined` and `""` are falsy, every other string is truthy. -/
def truthyStr : Option String → Bool
  | none => false
  | some s => !(s = "")

/-- Model of `x || d` for a possibly-missing string `x`:
returns `d` when `x` is `undefined` or `""`. -/
def jsOr (x : Option String) (d : String) : String :=
  match x with
  | none => d
  | some s => if s = "" then d else s

/-- Question type tags (`QuestionType` in `types.ts`). -/
inductive QuestionType where
  | MCQ
  | TRUE_FALSE
  | SHORT_ANSWER
  | ESSAY
deriving DecidableEq, Repr

/-- A question (`Question` in `types.ts`); `options`, `correctAnswer`
and `imageSvg` are optional fields. -/
structure Question where
  id : String
  type : QuestionType
  content : String
  options : Option (List String) := none
  correctAnswer : Option String := none
  imageSvg : Option String := none
deriving DecidableEq, Repr

/-- An assignment (`Assignment` in `types.ts`). -/
structure Assignment where
  id : String
  title : String
  subject : String
  grade : String
  topic : String
  questions : List Question
  createdAt : Int
deriving DecidableEq, Repr

/-- A student submission (`StudentSubmission` in `types.ts`). -/
structure StudentSubmission where
  assignmentId : String
  studentName : String
  studentClass : String
  answers : StrMap
  submittedAt : Int
deriving DecidableEq, Repr

/-- A grading result (`GradingResult` in `types.ts`). -/
structure GradingResult where
  score : ℚ
  totalScore : ℚ
  feedback : StrMap
  overallComment : String
deriving DecidableEq, Repr

/-- One element of the `assessments` array of the grading
collaborator's parsed JSON response.  Every field may be missing,
since the response is untrusted. -/
structure AssessmentItem where
  questionId : Option String := none
  score : Option ℚ := none
  feedback : Option String := none
deriving DecidableEq, Repr

/-- The grading collaborator's parsed JSON response
(`{ assessments, overallComment }`); both fields may be missing. -/
structure GradingResponse where
  assessments : Option (List AssessmentItem) := none
  overallComment : Option String := none
deriving DecidableEq, Repr

/-- The question id of an assessment item when it passes the
`if (item.questionId)` truthiness guard, `none` otherwise. -/
def truthyQid (item : AssessmentItem) : Option String :=
  match item.questionId with
  | none => none
  | some q => if q = "" then none else some q

/-- The contribution of one assessment item to `earnedScore`:
`item.score || 0` for items passing the `questionId` guard,
`0` for skipped items. -/
def itemScore (item : AssessmentItem) : ℚ :=
  match truthyQid item with
  | none => 0
  | some _ => item.score.getD 0

/-- One step of the `assessments.forEach` loop in `gradeSubmission`:
for an item with a truthy `questionId`, record
`item.feedback || "Không có nhận xét."` under that id and add
`item.score || 0` to the accumulator; otherwise skip the item. -/
def applyAssessment (acc : StrMap × ℚ) (item : AssessmentItem) : StrMap × ℚ :=
  match truthyQid item with
  | none => acc
  | some qid =>
      (assignKey acc.1 qid (jsOr item.feedback "Không có nhận xét."),
       acc.2 + item.score.getD 0)

/-- One step of the backfill loop: `if (!feedbackMap[q.id])` insert
the fixed placeholder feedback for question `q`. -/
def backfillStep (m : StrMap) (q : Question) : StrMap :=
  if truthyStr (lookupKey m q.id) then m
  else assignKey m q.id "Chưa có đánh giá (Lỗi hệ thống hoặc bỏ qua)."

/-- The backfill pass of `gradeSubmission`
(`assignment.questions.forEach`). -/
def backfill (m : StrMap) (qs : List Question) : StrMap :=
  qs.foldl backfillStep m

/-- Model of `parseFloat(x.toFixed(1))` on a non-negative rational:
rounding to one decimal place, halves upward. -/
def roundTo1 (x : ℚ) : ℚ := (⌊x * 10 + 1 / 2⌋ : ℚ) / 10

/-- The reduction step of `gradeSubmission`
(`services/geminiService.ts`, lines 380–409): fold the assessments
into a feedback map and an earned score, backfill missing assignment
questions, normalise to the 10-point scale and round to one decimal. -/
def gradeReduce (a : Assignment) (resp : GradingResponse) : GradingResult :=
  let maxScore : ℚ := a.questions.length * 10
  let assessments := resp.assessments.getD []
  let folded := assessments.foldl applyAssessment ([], 0)
  let feedbackMap := backfill folded.1 a.questions
  let normalizedScore : ℚ := if maxScore > 0 then folded.2 / maxScore * 10 else 0
  { score := roundTo1 normalizedScore
    totalScore := 10
    feedback := feedbackMap
    overallComment := jsOr resp.overallComment "Đã hoàn thành bài tập." }

/-- The earned score actually accumulated by the reduction: the sum of
`item.score || 0` over the assessment items with a truthy
`questionId` — whether or not that id belongs to the assignment. -/
def sumScores (resp : GradingResponse) : ℚ :=
  ((resp.assessments.getD []).map itemScore).sum

/-- The earned score as the specification describes it (§4.5 step 2):
the sum of the scores of assessment entries whose non-empty
`questionId` is an identifier of the assignment; entries referencing
unknown identifiers are ignored. -/
def specRecognizedScore (a : Assignment) (resp : GradingResponse) : ℚ :=
  (((resp.assessments.getD []).filter fun item =>
      match truthyQid item with
      | some q => (a.questions.map Question.id).contains q
      | none => false).map itemScore).sum

/-- Outcome of the grading collaborator call, at the boundary where
`gradeSubmission` consumes it: the `generateContent` call threw, the
returned text could not be parsed as JSON, or it parsed into a
response value. -/
inductive CollabResult where
  | callFailed (msg : String)
  | unparsable (msg : String)
  | parsed (resp : GradingResponse)
deriving DecidableEq, Repr

/-- Model of `gradeSubmission` (`services/geminiService.ts`): any exception
from the collaborator call or from `JSON.parse` is caught and
re-thrown as a single grading-failed error; a parsed response always
reduces to a `GradingResult`. -/
def gradeSubmission (a : Assignment) (r : CollabResult) : Except String GradingResult :=
  match r with
  | .callFailed msg => .error ("AI Grading failed: " ++ msg)
  | .unparsable msg => .error ("AI Grading failed: " ++ msg)
  | .parsed resp => .ok (gradeReduce a resp)

/-- State of the result-analysis view (`ResultAnalysis` component):
the grading result, the loading flag and the error message. -/
structure ResultViewState where
  result : Option GradingResult
  loading : Bool
  errorMsg : Option String
deriving DecidableEq, Repr

/-- Model of `fetchGrade` in the `ResultAnalysis` component: on success store
the result and clear the error; on failure record the error message
and leave the previously stored result untouched. -/
def fetchGrade (st : ResultViewState) (a : Assignment) (r : CollabResult) : ResultViewState :=
  match gradeSubmission a r with
  | .ok g => { result := some g, loading := false, errorMsg := none }
  | .error m => { result := st.result, loading := false, errorMsg := some m }

/-- Model of `handleAnswerChange(qId, val)` in the `StudentExam` component:
`setAnswers(prev => ({ ...prev, [qId]: val }))` — an unconditional
overwrite producing a fresh answers object. -/
def handleAnswerChange (answers : StrMap) (qId val : String) : StrMap :=
  assignKey answers qId val

/-- The count `Object.keys(answers).length`, the answered-question count shown
in the submit modal. -/
def answeredCount (answers : StrMap) : Nat := (recKeys answers).length

/-- The per-question answered check used by the review list and the
sidebar: `!!answers[q.id]`. -/
def isAnsweredFlag (answers : StrMap) (qId : String) : Bool :=
  truthyStr (lookupKey answers qId)

/-- Navigation state of the `StudentExam` component:
`currentQuestionIndex` and `isReviewing`. -/
structure NavState where
  currentQuestionIndex : Nat
  isReviewing : Bool
deriving DecidableEq, Repr

/-- Model of `handleNext`: advance the index while it is below the last
question index, otherwise enter review mode. -/
def handleNext (len : Nat) (s : NavState) : NavState :=
  if s.currentQuestionIndex < len - 1 then
    { s with currentQuestionIndex := s.currentQuestionIndex + 1 }
  else
    { s with isReviewing := true }

/-- Model of `handlePrev`: while reviewing, only clear the review flag;
otherwise move back one question unless already at index 0. -/
def handlePrev (s : NavState) : NavState :=
  if s.isReviewing then { s with isReviewing := false }
  else if s.currentQuestionIndex > 0 then
    { s with currentQuestionIndex := s.currentQuestionIndex - 1 }
  else s

/-- Model of `goToQuestion(index)`: when `0 ≤ index < length` (the lower bound
is implicit in the `Nat` index), set the index and clear the review
flag; out-of-range indices are ignored. -/
def goToQuestion (len : Nat) (index : Nat) (s : NavState) : NavState :=
  if index < len then
    { s with currentQuestionIndex := index, isReviewing := false }
  else s

/-- Initial timer value: `useState(45 * 60)`. -/
def initialTimeLeft : Int := 45 * 60

/-- One tick of the countdown interval:
`prev <= 0 ? 0 : prev - 1` (the `<= 0` branch also clears the
interval, which does not affect the stored value). -/
def timerTick (prev : Int) : Int :=
  if prev ≤ 0 then 0 else prev - 1

/-- The submission record built by `handleConfirmSubmit` and handed to
`onSubmit`: the current answers object together with the session
metadata and `Date.now()`. -/
def buildSubmission (a : Assignment) (studentName studentClass : String)
    (answers : StrMap) (now : Int) : StudentSubmission :=
  { assignmentId := a.id
    studentName := studentName
    studentClass := studentClass
    answers := answers
    submittedAt := now }

/-- The part of the application state relevant to snapshot isolation:
the live answers object of the exam screen and the submission stored
by `App.handleSubmitExam`. -/
structure SessionState where
  answers : StrMap
  submission : Option StudentSubmission
deriving DecidableEq, Repr

/-- An answer-change action applied to the session: only the answers
object is replaced (`setAnswers`), the stored submission is not
touched. -/
def sessionSetAnswer (st : SessionState) (qId val : String) : SessionState :=
  { st with answers := handleAnswerChange st.answers qId val }

/-- Confirmed submit: build the submission from the current answers
and store it (`onSubmit` → `handleSubmitExam` → `setSubmission`). -/
def sessionConfirmSubmit (a : Assignment) (studentName studentClass : String)
    (now : Int) (st : SessionState) : SessionState :=
  { st with submission := some (buildSubmission a studentName studentClass st.answers now) }

/-- Apply a sequence of answer-change actions to the session. -/
def applyAnswerActions (st : SessionState) : List (String × String) → SessionState
  | [] => st
  | (q, v) :: rest => applyAnswerActions (sessionSetAnswer st q v) rest

/-- Model of `String.prototype.toUpperCase` on the basic-letter
alphabet: upper-case every character. -/
def jsToUpper (s : String) : String := ⟨s.data.map Char.toUpper⟩

/-- Model of `String.prototype.trim`: strip whitespace characters
from both ends. -/
def jsTrim (s : String) : String :=
  ⟨((s.data.dropWhile Char.isWhitespace).reverse.dropWhile Char.isWhitespace).reverse⟩

/-- Model of `getMCQText(q, key)` in the `ResultAnalysis` component: resolve a
stored MCQ answer key to its option text for display.  Absent or
empty keys yield `null`; non-MCQ questions and questions without an
options array pass the key through; otherwise the key is trimmed and
upper-cased (`key.trim().toUpperCase()`), looked up in
`['A','B','C','D']`, and the option at the found index is returned
when that index was found (`indexOf ≠ -1`) and the option is truthy,
else the key is returned unchanged. -/
def getMCQText (q : Question) (key : Option String) : Option String :=
  match key with
  | none => none
  | some k =>
    if k = "" then none
    else if q.type ≠ QuestionType.MCQ then some k
    else match q.options with
      | none => some k
      | some opts =>
        let idx := List.indexOf (jsToUpper (jsTrim k)) ["A", "B", "C", "D"]
        if idx < 4 then
          match opts.get? idx with
          | some opt => if opt = "" then some k else some opt
          | none => some k
        else some k

/-- What the review screen's `getAnswerDisplay(qId)` renders for one
question: the "Chưa làm" placeholder, a resolved key badge with the
option text `q.options[idx]` (possibly `undefined`), or the raw
answer token. -/
inductive AnswerDisplay where
  | notDone
  | resolved (key : String) (optionText : Option String)
  | raw (key : String)
deriving DecidableEq, Repr

/-- Model of `getAnswerDisplay(qId)` in the `StudentExam` component: find the
question, read the stored answer; when both exist and the question is
an MCQ with an options array, look the raw token up in
`['A','B','C','D']` — exactly, with no trimming or case folding —
and render the resolved option on a hit, the raw token otherwise. -/
def getAnswerDisplay (questions : List Question) (answers : StrMap)
    (qId : String) : AnswerDisplay :=
  match questions.find? (fun item => item.id = qId) with
  | none => .notDone
  | some q =>
    match lookupKey answers qId with
    | none => .notDone
    | some ansKey =>
      if ansKey = "" then .notDone
      else if q.type = QuestionType.MCQ ∧ q.options ≠ none then
        let idx := List.indexOf ansKey ["A", "B", "C", "D"]
        if idx < 4 then .resolved ansKey ((q.options.getD []).get? idx)
        else .raw ansKey
      else .raw ansKey

/-- A one-question assignment used in concrete checks. -/
def exQ1 : Question :=
  { id := "q1", type := QuestionType.SHORT_ANSWER, content := "1 + 1 ?" }

/-- One-question example assignment. -/
def exA1 : Assignment :=
  { id := "a1", title := "T", subject := "Math", grade := "10", topic := "Sets",
    questions := [exQ1], createdAt := 0 }

/-- A collaborator response whose only assessment references a
question id that no question of `exA1` has. -/
def exRespUnknown : GradingResponse :=
  { assessments := some [{ questionId := some "zzz", score := some 10, feedback := some "ok" }],
    overallComment := some "done" }

/-- A collaborator response with an empty assessments array. -/
def exRespEmpty : GradingResponse :=
  { assessments := some [], overallComment := none }

/-- A collaborator response giving `exA1`'s single question full
marks. -/
def exRespFull : GradingResponse :=
  { assessments := some [{ questionId := some "q1", score := some 10, feedback := some "ok" }],
    overallComment := some "done" }

/-- A four-question example assignment. -/
def exA4 : Assignment :=
  { id := "a4", title := "T4", subject := "Math", grade := "10", topic := "Sets",
    questions :=
      [ { id := "q1", type := QuestionType.MCQ, content := "c1",
          options := some ["x", "y", "z", "w"] },
        { id := "q2", type := QuestionType.TRUE_FALSE, content := "c2" },
        { id := "q3", type := QuestionType.SHORT_ANSWER, content := "c3" },
        { id := "q4", type := QuestionType.ESSAY, content := "c4" } ],
    createdAt := 0 }

/-- Per-question scores `[10, 10, 0, 0]` for the four questions of
`exA4`. -/
def exResp4 : GradingResponse :=
  { assessments := some
      [ { questionId := some "q1", score := some 10, feedback := some "f1" },
        { questionId := some "q2", score := some 10, feedback := some "f2" },
        { questionId := some "q3", score := some 0, feedback := some "f3" },
        { questionId := some "q4", score := some 0, feedback := some "f4" } ],
    overallComment := some "good" }

/-- An MCQ question with options `["x", "y", "z", "w"]`. -/
def qXYZW : Question :=
  { id := "qm", type := QuestionType.MCQ, content := "pick one",
    options := some ["x", "y", "z", "w"] }

/-- An MCQ question whose first option is the empty string. -/
def qEmptyFirst : Question :=
  { id := "qe", type := QuestionType.MCQ, content := "pick one",
    options := some ["", "y", "z", "w"] }

theorem mem_recKeys_assignKey (m : StrMap) (k k' v : String) :
    k ∈ recKeys (assignKey m k' v) ↔ k = k' ∨ k ∈ recKeys m := by
  induction m with
  | nil => simp [assignKey, recKeys]
  | cons p rest ih =>
    obtain ⟨a, b⟩ := p
    by_cases h : a = k'
    · subst h
      simp [assignKey, recKeys]
    · simp only [assignKey, if_neg h, recKeys, List.map_cons, List.mem_cons] at *
      rw [ih]
      tauto

theorem lookupKey_isSome_iff (m : StrMap) (k : String) :
    (lookupKey m k).isSome ↔ k ∈ recKeys m := by
  induction m with
  | nil => simp [lookupKey, recKeys]
  | cons p rest ih =>
    obtain ⟨a, b⟩ := p
    by_cases h : a = k
    · subst h
      simp [lookupKey, recKeys]
    · simp only [lookupKey, if_neg h, recKeys, List.map_cons, List.mem_cons] at *
      rw [ih]
      constructor
      · exact Or.inr
      · rintro (rfl | hk)
        · exact absurd rfl h
        · exact hk

theorem lookupKey_assignKey_self (m : StrMap) (k v : String) :
    lookupKey (assignKey m k v) k = some v := by
  induction m with
  | nil => simp [assignKey, lookupKey]
  | cons p rest ih =>
    obtain ⟨a, b⟩ := p
    by_cases h : a = k
    · subst h
      simp [assignKey, lookupKey]
    · simp [assignKey, h, lookupKey, ih]

theorem length_assignKey_of_not_mem (m : StrMap) (k v : String) (h : k ∉ recKeys m) :
    (assignKey m k v).length = m.length + 1 := by
  induction m with
  | nil => simp [assignKey]
  | cons p rest ih =>
    obtain ⟨a, b⟩ := p
    simp only [recKeys, List.map_cons, List.mem_cons] at h
    push_neg at h
    have ha : a ≠ k := fun hak => h.1 hak.symm
    simp only [assignKey, if_neg ha, List.length_cons]
    rw [ih]
    intro hk
    exact h.2 hk

theorem mem_recKeys_foldl_applyAssessment (items : List AssessmentItem)
    (m : StrMap) (e : ℚ) (k : String) :
    k ∈ recKeys (items.foldl applyAssessment (m, e)).1 ↔
      k ∈ recKeys m ∨ ∃ item ∈ items, truthyQid item = some k := by
  induction items generalizing m e with
  | nil => simp
  | cons item rest ih =>
    rw [List.foldl_cons]
    cases hq : truthyQid item with
    | none =>
      rw [show applyAssessment (m, e) item = (m, e) by simp [applyAssessment, hq]]
      rw [ih]
      simp only [List.mem_cons, hq]
      constructor
      · rintro (h | ⟨it, hit, hsome⟩)
        · exact Or.inl h
        · exact Or.inr ⟨it, Or.inr hit, hsome⟩
      · rintro (h | ⟨it, rfl | hit, hsome⟩)
        · exact Or.inl h
        · exact absurd (hq ▸ hsome) (by simp)
        · exact Or.inr ⟨it, hit, hsome⟩
    | some qid =>
      rw [show applyAssessment (m, e) item =
            (assignKey m qid (jsOr item.feedback "Không có nhận xét."),
             e + item.score.getD 0) by simp [applyAssessment, hq]]
      rw [ih, mem_recKeys_assignKey]
      simp only [List.mem_cons]
      constructor
      · rintro ((rfl | h) | ⟨it, hit, hsome⟩)
        · exact Or.inr ⟨item, Or.inl rfl, hq⟩
        · exact Or.inl h
        · exact Or.inr ⟨it, Or.inr hit, hsome⟩
      · rintro (h | ⟨it, rfl | hit, hsome⟩)
        · exact Or.inl (Or.inr h)
        · rw [hq] at hsome
          exact Or.inl (Or.inl (Option.some_injective _ hsome).symm)
        · exact Or.inr ⟨it, hit, hsome⟩

theorem snd_foldl_applyAssessment (items : List AssessmentItem) (m : StrMap) (e : ℚ) :
    (items.foldl applyAssessment (m, e)).2 = e + (items.map itemScore).sum := by
  induction items generalizing m e with
  | nil => simp
  | cons item rest ih =>
    rw [List.foldl_cons]
    cases hq : truthyQid item with
    | none =>
      rw [show applyAssessment (m, e) item = (m, e) by simp [applyAssessment, hq]]
      rw [ih]
      simp [itemScore, hq]
    | some qid =>
      rw [show applyAssessment (m, e) item =
            (assignKey m qid (jsOr item.feedback "Không có nhận xét."),
             e + item.score.getD 0) by simp [applyAssessment, hq]]
      rw [ih]
      simp only [List.map_cons, List.sum_cons, itemScore, hq]
      ring

theorem mem_recKeys_backfillStep (m : StrMap) (q : Question) (k : String) :
    k ∈ recKeys (backfillStep m q) ↔ k = q.id ∨ k ∈ recKeys m := by
  unfold backfillStep
  by_cases h : truthyStr (lookupKey m q.id) = true
  · rw [if_pos h]
    have hmem : q.id ∈ recKeys m := by
      rw [← lookupKey_isSome_iff]
      cases hl : lookupKey m q.id with
      | none => rw [hl] at h; simp [truthyStr] at h
      | some s => simp
    constructor
    · exact Or.inr
    · rintro (rfl | h')
      · exact hmem
      · exact h'
  · rw [if_neg h]
    exact mem_recKeys_assignKey m k q.id _

theorem mem_recKeys_backfill (qs : List Question) (m : StrMap) (k : String) :
    k ∈ recKeys (backfill m qs) ↔ k ∈ recKeys m ∨ k ∈ qs.map Question.id := by
  induction qs generalizing m with
  | nil => simp [backfill]
  | cons q rest ih =>
    show k ∈ recKeys (backfill (backfillStep m q) rest) ↔ _
    rw [ih, mem_recKeys_backfillStep]
    simp only [List.map_cons, List.mem_cons]
    tauto

theorem applyAnswerActions_submission (acts : List (String × String)) (st : SessionState) :
    (applyAnswerActions st acts).submission = st.submission := by
  induction acts generalizing st with
  | nil => rfl
  | cons p rest ih =>
    obtain ⟨q, v⟩ := p
    rw [show applyAnswerActions st ((q, v) :: rest) =
          applyAnswerActions (sessionSetAnswer st q v) rest from rfl]
    rw [ih]
    rfl

theorem timerTick_iterate_nonneg (n : ℕ) (t : ℤ) (h : 0 ≤ t) :
    0 ≤ timerTick^[n] t := by
  induction n generalizing t with
  | zero => simpa
  | succ n ih =>
    rw [Function.iterate_succ_apply]
    apply ih
    unfold timerTick
    split <;> omega

theorem roundTo1_eval (x : ℚ) (n : ℤ) (h1 : (n : ℚ) ≤ x * 10 + 1 / 2)
    (h2 : x * 10 + 1 / 2 < n + 1) : roundTo1 x = n / 10 := by
  unfold roundTo1
  rw [show ⌊x * 10 + 1 / 2⌋ = n from Int.floor_eq_iff.mpr ⟨h1, h2⟩]

theorem score_eq (a : Assignment) (resp : GradingResponse) :
    (gradeReduce a resp).score =
      roundTo1 (if a.questions.length = 0 then 0
                else sumScores resp / ((a.questions.length : ℚ) * 10) * 10) := by
  have hscore : (gradeReduce a resp).score =
      roundTo1 (if ((a.questions.length : ℚ) * 10) > 0
                then ((resp.assessments.getD []).foldl applyAssessment ([], (0 : ℚ))).2 /
                      ((a.questions.length : ℚ) * 10) * 10
                else 0) := rfl
  rw [hscore, snd_foldl_applyAssessment, zero_add]
  by_cases h : a.questions.length = 0
  · simp [h, sumScores]
  · have hpos : (0 : ℚ) < (a.questions.length : ℚ) := by
      exact_mod_cast Nat.pos_of_ne_zero h
    rw [if_pos (by positivity), if_neg h]
    rfl

/-- Claim C1, counterexample: on the one-question assignment `exA1`
(question id `"q1"`) and a collaborator response whose single
assessment carries the unknown question id `"zzz"`, the feedback
mapping of the grading reduction contains the key `"zzz"`, which is
not a question identifier of the assignment — the reduction does not
ignore assessment entries with unknown question ids, and the feedback
key set is strictly larger than the assignment's question-id set. -/
theorem gradeReduce_unknownId_key_cex :
    "zzz" ∈ recKeys (gradeReduce exA1 exRespUnknown).feedback ∧
    "zzz" ∉ exA1.questions.map Question.id := by decide

/-- Claim C1 (amended): the feedback key set of the grading reduction
is exactly the union of the assignment's question-identifier set and
the set of truthy `questionId`s occurring in the collaborator's
assessments; in particular every assignment question has an entry
(never fewer), but assessment entries with unknown question ids are
recorded too rather than ignored. -/
theorem gradeReduce_feedback_keys_union (a : Assignment) (resp : GradingResponse)
    (k : String) :
    k ∈ recKeys (gradeReduce a resp).feedback ↔
      k ∈ a.questions.map Question.id ∨
        ∃ item ∈ resp.assessments.getD [], truthyQid item = some k := by
  have hfeedback : (gradeReduce a resp).feedback =
      backfill ((resp.assessments.getD []).foldl applyAssessment ([], (0 : ℚ))).1
        a.questions := rfl
  rw [hfeedback, mem_recKeys_backfill, mem_recKeys_foldl_applyAssessment]
  simp only [recKeys, List.map_nil, List.not_mem_nil, false_or]
  exact or_comm

theorem roundTo1_zero : roundTo1 0 = 0 := by
  rw [roundTo1_eval 0 0 (by norm_num) (by norm_num)]
  norm_num

theorem roundTo1_five : roundTo1 5 = 5 := by
  rw [roundTo1_eval 5 50 (by norm_num) (by norm_num)]
  norm_num

theorem roundTo1_ten : roundTo1 10 = 10 := by
  rw [roundTo1_eval 10 100 (by norm_num) (by norm_num)]
  norm_num

/-- Claim C2, counterexample: on the one-question assignment `exA1`
and the response `exRespUnknown`, whose single assessment carries
score 10 under the unknown question id `"zzz"`, the grading reduction
returns the overall score 10, while the claimed formula — earned
score summed over the recognized (assignment-known) assessments only
— yields 0: the reduction also adds the scores of assessment entries
whose question id does not belong to the assignment. -/
theorem gradeReduce_score_unknownId_cex :
    (gradeReduce exA1 exRespUnknown).score = 10 ∧
    specRecognizedScore exA1 exRespUnknown = 0 ∧
    roundTo1 (specRecognizedScore exA1 exRespUnknown /
        ((exA1.questions.length : ℚ) * 10) * 10) = 0 := by
  have h0 : specRecognizedScore exA1 exRespUnknown = 0 := by decide
  refine ⟨?_, h0, ?_⟩
  · rw [score_eq]
    have hs : sumScores exRespUnknown = 10 := by
      simp +decide [sumScores, exRespUnknown, itemScore, truthyQid]
    rw [hs]
    norm_num [exA1, roundTo1_ten]
  · rw [h0]
    norm_num [roundTo1_zero]

/-- Claim C2 (amended): the overall score is
`roundTo1 ((earnedScore / (numberOfQuestions * 10)) * 10)` — rounded
to one decimal place — where `earnedScore` is the sum of the scores
of all assessment entries with a non-empty `questionId` (whether or
not that id belongs to the assignment), a missing score counting
as 0, and the score is 0 when the assignment has zero questions;
consequently the score is 0 when the collaborator returns zero
assessments, 10 when the summed scores reach the full
`numberOfQuestions * 10`, and 5 for the four-question assignment
`exA4` with per-question scores `[10, 10, 0, 0]`. -/
theorem gradeReduce_score_spec :
    (∀ (a : Assignment) (resp : GradingResponse),
       (gradeReduce a resp).score =
         roundTo1 (if a.questions.length = 0 then 0
                   else sumScores resp / ((a.questions.length : ℚ) * 10) * 10)) ∧
    (∀ (a : Assignment) (resp : GradingResponse),
       resp.assessments.getD [] = [] → (gradeReduce a resp).score = 0) ∧
    (∀ (a : Assignment) (resp : GradingResponse),
       0 < a.questions.length → sumScores resp = (a.questions.length : ℚ) * 10 →
       (gradeReduce a resp).score = 10) ∧
    (gradeReduce exA4 exResp4).score = 5 := by
  refine ⟨score_eq, ?_, ?_, ?_⟩
  · intro a resp h
    rw [score_eq]
    have hs : sumScores resp = 0 := by rw [sumScores, h]; simp
    have hz : (if a.questions.length = 0 then (0 : ℚ)
        else sumScores resp / ((a.questions.length : ℚ) * 10) * 10) = 0 := by
      rw [hs]; split <;> simp
    rw [hz, roundTo1_zero]
  · intro a resp hlen hsum
    rw [score_eq, if_neg (Nat.pos_iff_ne_zero.mp hlen), hsum]
    have hne : ((a.questions.length : ℚ) * 10) ≠ 0 := by
      have : (0 : ℚ) < (a.questions.length : ℚ) := by
        exact_mod_cast hlen
      positivity
    rw [div_self hne, one_mul, roundTo1_ten]
  · rw [score_eq]
    have hs : sumScores exResp4 = 20 := by
      simp +decide [sumScores, exResp4, itemScore, truthyQid]
      norm_num
    rw [hs]
    norm_num [exA4, roundTo1_five]

/-- Claim C2, witness: the zero-assessments and full-marks branches
of `gradeReduce_score_spec` instantiated on the one-question
assignment `exA1`. -/
theorem gradeReduce_score_spec_witness :
    (gradeReduce exA1 exRespEmpty).score = 0 ∧
    (gradeReduce exA1 exRespFull).score = 10 := by
  constructor
  · exact gradeReduce_score_spec.2.1 exA1 exRespEmpty (by decide)
  · apply gradeReduce_score_spec.2.2.1 exA1 exRespFull (by decide)
    have hs : sumScores exRespFull = 10 := by
      simp +decide [sumScores, exRespFull, itemScore, truthyQid]
    rw [hs]
    norm_num [exA1]

/-- Claim C3, counterexample: after the answer-change action
`handleAnswerChange answers "q1" ""` — exactly what clearing the
short-answer input emits — the store maps the key `"q1"` to the empty
string: the key is neither removed nor absent, and it is counted by
`Object.keys(answers).length` (the submit-modal answered count),
unlike true absence. -/
theorem answerStore_empty_entry_cex :
    lookupKey (handleAnswerChange [] "q1" "") "q1" = some "" ∧
    answeredCount (handleAnswerChange [] "q1" "") = 1 ∧
    answeredCount ([] : StrMap) = 0 := by decide

/-- Claim C3 (amended): `setAnswer` is an unconditional overwrite
that does store the empty string: after an answer-change to `""` the
key remains present and maps to `""`; such an entry is treated as
unanswered by the truthiness-based reads (`!!answers[q.id]`), but it
is not removed and is still counted by `Object.keys(answers).length`,
so an empty-string entry is not identical to absence. -/
theorem setAnswer_empty_string (answers : StrMap) (qId : String) :
    lookupKey (handleAnswerChange answers qId "") qId = some "" ∧
    isAnsweredFlag (handleAnswerChange answers qId "") qId = false ∧
    (qId ∉ recKeys answers →
      answeredCount (handleAnswerChange answers qId "") = answeredCount answers + 1) := by
  refine ⟨lookupKey_assignKey_self answers qId "", ?_, ?_⟩
  · rw [isAnsweredFlag, handleAnswerChange, lookupKey_assignKey_self answers qId ""]
    rfl
  · intro h
    rw [answeredCount, answeredCount, recKeys, recKeys, List.length_map, List.length_map]
    exact length_assignKey_of_not_mem answers qId "" h

/-- Claim C3, witness: the amended statement instantiated on a store
that answers question `"q2"` only, clearing the answer of `"q1"`. -/
theorem setAnswer_empty_string_witness :
    lookupKey (handleAnswerChange [("q2", "A")] "q1" "") "q1" = some "" ∧
    isAnsweredFlag (handleAnswerChange [("q2", "A")] "q1" "") "q1" = false ∧
    answeredCount (handleAnswerChange [("q2", "A")] "q1" "") =
      answeredCount [("q2", "A")] + 1 := by
  have h := setAnswer_empty_string [("q2", "A")] "q1"
  exact ⟨h.1, h.2.1, h.2.2 (by decide)⟩

/-- Claim C5: on a 3-question assignment, three consecutive `next()`
calls from `Answering(0)` pass through `Answering(1)`, `Answering(2)`
and end in `Reviewing`, and `jumpTo(1)` from `Reviewing` yields
`Answering(1)`; in general `next()` increments the index when it is
below the last question index and sets the review flag otherwise, and
`jumpTo(i)` for any in-range `i` sets the index and clears the review
flag regardless of the current state. -/
theorem nav_next_jump_spec (s : NavState) (len i : Nat) :
    (handleNext 3 ⟨0, false⟩ = ⟨1, false⟩ ∧
     handleNext 3 ⟨1, false⟩ = ⟨2, false⟩ ∧
     handleNext 3 ⟨2, false⟩ = ⟨2, true⟩ ∧
     goToQuestion 3 1 ⟨2, true⟩ = ⟨1, false⟩) ∧
    (s.currentQuestionIndex < len - 1 →
      handleNext len s = { s with currentQuestionIndex := s.currentQuestionIndex + 1 }) ∧
    (¬ s.currentQuestionIndex < len - 1 →
      handleNext len s = { s with isReviewing := true }) ∧
    (i < len → goToQuestion len i s = { s with currentQuestionIndex := i, isReviewing := false }) := by
  refine ⟨by decide, ?_, ?_, ?_⟩
  · intro h
    rw [handleNext, if_pos h]
  · intro h
    rw [handleNext, if_neg h]
  · intro h
    rw [goToQuestion, if_pos h]

/-- Claim C5, witness: the general `next()` and `jumpTo()` branches
instantiated on a 5-question assignment. -/
theorem nav_next_jump_spec_witness :
    handleNext 5 ⟨1, false⟩ = ⟨2, false⟩ ∧
    handleNext 5 ⟨4, false⟩ = ⟨4, true⟩ ∧
    goToQuestion 5 3 ⟨4, true⟩ = ⟨3, false⟩ := by
  refine ⟨?_, ?_, ?_⟩
  · exact (nav_next_jump_spec ⟨1, false⟩ 5 3).2.1 (by decide)
  · exact (nav_next_jump_spec ⟨4, false⟩ 5 3).2.2.1 (by decide)
  · exact (nav_next_jump_spec ⟨4, true⟩ 5 3).2.2.2 (by decide)

/-- Claim C9: `prev()` from `Answering(i)` with `i > 0` goes to
`Answering(i-1)`; from `Answering(0)` it is a no-op; from `Reviewing`
it clears only the review flag, leaving the last-set question index
unchanged. -/
theorem nav_prev_spec (s : NavState) :
    (s.isReviewing = false → 0 < s.currentQuestionIndex →
      handlePrev s = { s with currentQuestionIndex := s.currentQuestionIndex - 1 }) ∧
    (s.isReviewing = false → s.currentQuestionIndex = 0 → handlePrev s = s) ∧
    (s.isReviewing = true →
      handlePrev s = { s with isReviewing := false } ∧
      (handlePrev s).currentQuestionIndex = s.currentQuestionIndex) := by
  refine ⟨?_, ?_, ?_⟩
  · intro hr hi
    rw [handlePrev, if_neg (by simp [hr]), if_pos hi]
  · intro hr hi
    rw [handlePrev, if_neg (by simp [hr]), if_neg (by simp [hi])]
  · intro hr
    constructor
    · rw [handlePrev, if_pos (by simp [hr])]
    · rw [handlePrev, if_pos (by simp [hr])]

/-- Claim C9, witness: the three `prev()` branches instantiated at
the concrete states `Answering(2)`, `Answering(0)` and `Reviewing`
with index 2. -/
theorem nav_prev_spec_witness :
    handlePrev ⟨2, false⟩ = ⟨1, false⟩ ∧
    handlePrev ⟨0, false⟩ = ⟨0, false⟩ ∧
    handlePrev ⟨2, true⟩ = ⟨2, false⟩ ∧
    (handlePrev ⟨2, true⟩).currentQuestionIndex = 2 := by
  refine ⟨?_, ?_, ?_, ?_⟩
  · exact (nav_prev_spec ⟨2, false⟩).1 rfl (by decide)
  · exact (nav_prev_spec ⟨0, false⟩).2.1 rfl rfl
  · exact ((nav_prev_spec ⟨2, true⟩).2.2 rfl).1
  · exact ((nav_prev_spec ⟨2, true⟩).2.2 rfl).2

/-- Claim C8: the countdown starts at `45 * 60 = 2700` seconds, one
tick of the interval decreases a positive value by exactly 1 and
clamps a non-positive value to 0, and every state reachable from the
initial value by ticking is non-negative. -/
theorem countdown_timer_spec :
    initialTimeLeft = 2700 ∧
    (∀ t : ℤ, 0 < t → timerTick t = t - 1) ∧
    (∀ t : ℤ, t ≤ 0 → timerTick t = 0) ∧
    (∀ n : ℕ, 0 ≤ timerTick^[n] initialTimeLeft) := by
  refine ⟨rfl, ?_, ?_, ?_⟩
  · intro t h
    rw [timerTick, if_neg (by omega)]
  · intro t h
    rw [timerTick, if_pos h]
  · intro n
    exact timerTick_iterate_nonneg n initialTimeLeft (by decide)

/-- Claim C8, witness: the tick branches instantiated at 2700 and at
0, and non-negativity after 3000 ticks (more than the initial
duration). -/
theorem countdown_timer_spec_witness :
    timerTick 2700 = 2699 ∧ timerTick 0 = 0 ∧
    0 ≤ timerTick^[3000] initialTimeLeft := by
  refine ⟨?_, ?_, countdown_timer_spec.2.2.2 3000⟩
  · have h := countdown_timer_spec.2.1 2700 (by norm_num)
    omega
  · exact countdown_timer_spec.2.2.1 0 le_rfl

/-- Claim C6: snapshot isolation of the submission — after the
confirmed submit builds a submission from the answer store, any
further sequence of answer-change actions leaves the stored
submission (all of its fields, in particular the answers mapping)
equal to the one built from the store's contents at submit time. -/
theorem submission_snapshot_isolation (a : Assignment) (n c : String) (now : Int)
    (st : SessionState) (acts : List (String × String)) :
    (applyAnswerActions (sessionConfirmSubmit a n c now st) acts).submission =
      some (buildSubmission a n c st.answers now) ∧
    (buildSubmission a n c st.answers now).answers = st.answers := by
  constructor
  · rw [applyAnswerActions_submission]
    rfl
  · rfl

/-- Claim C7: when the grading collaborator call fails or its
response text cannot be parsed at all, `gradeSubmission` fails with a
grading-failed error and produces no `GradingResult`, and `fetchGrade`
leaves the previously stored (null/absent) result in place while
recording the error message; a response that did parse — however
partial per question — is always reduced to a result without any
error. -/
theorem grading_failure_no_partial_result (st : ResultViewState) (a : Assignment)
    (m : String) (resp : GradingResponse) :
    gradeSubmission a (.callFailed m) = .error ("AI Grading failed: " ++ m) ∧
    gradeSubmission a (.unparsable m) = .error ("AI Grading failed: " ++ m) ∧
    (fetchGrade st a (.callFailed m)).result = st.result ∧
    (fetchGrade st a (.unparsable m)).result = st.result ∧
    (fetchGrade st a (.callFailed m)).errorMsg = some ("AI Grading failed: " ++ m) ∧
    gradeSubmission a (.parsed resp) = .ok (gradeReduce a resp) ∧
    (fetchGrade st a (.parsed resp)).result = some (gradeReduce a resp) := by
  exact ⟨rfl, rfl, rfl, rfl, rfl, rfl, rfl⟩

theorem getMCQText_resolve (q : Question) (k : String) (opts : List String)
    (i : Nat) (opt : String) (hk : k ≠ "") (ht : q.type = QuestionType.MCQ)
    (hopts : q.options = some opts)
    (hidx : List.indexOf (jsToUpper (jsTrim k)) ["A", "B", "C", "D"] = i)
    (hlt : i < 4) (hget : opts.get? i = some opt) (hne : opt ≠ "") :
    getMCQText q (some k) = some opt := by
  simp only [getMCQText, if_neg hk, hopts]
  rw [if_neg (by simp [ht])]
  simp only [hidx]
  rw [if_pos hlt, hget]
  exact if_neg hne

/-- Claim C4, counterexample: for the MCQ question `qEmptyFirst` with
options `["", "y", "z", "w"]` and the stored token `"a"`, the
uppercase-trimmed token is found at position 0 of
`["A","B","C","D"]` and the options list has an entry at position 0
(the empty string), yet `getMCQText` returns the token `"a"`
unchanged instead of that option text: resolution additionally
requires the option text at the found position to be truthy
(non-empty). -/
theorem getMCQText_emptyOption_cex :
    qEmptyFirst.type = QuestionType.MCQ ∧
    qEmptyFirst.options = some ["", "y", "z", "w"] ∧
    List.indexOf (jsToUpper (jsTrim "a")) ["A", "B", "C", "D"] = 0 ∧
    (["", "y", "z", "w"] : List String).get? 0 = some "" ∧
    getMCQText qEmptyFirst (some "a") = some "a" := by decide

/-- Claim C4 (amended): `getMCQText` returns absent for an absent or
empty token; returns the token unchanged for a non-MCQ question or
one without an options list; and for an MCQ question uppercase-trims
the token, looks it up in `["A","B","C","D"]`, and returns the option
text at the found position when that position exists in the options
list and the option text there is non-empty, otherwise the token
unchanged — so for options `["x","y","z","w"]` and stored answer
`"b"` the result is `"y"`. -/
theorem getMCQText_spec (q : Question) (k : String) (opts : List String)
    (i : Nat) (opt : String) :
    getMCQText q none = none ∧
    getMCQText q (some "") = none ∧
    (k ≠ "" → q.type ≠ QuestionType.MCQ → getMCQText q (some k) = some k) ∧
    (k ≠ "" → q.options = none → getMCQText q (some k) = some k) ∧
    (k ≠ "" → q.type = QuestionType.MCQ → q.options = some opts →
      List.indexOf (jsToUpper (jsTrim k)) ["A", "B", "C", "D"] = i → i < 4 →
      opts.get? i = some opt → opt ≠ "" →
      getMCQText q (some k) = some opt) ∧
    (k ≠ "" → q.type = QuestionType.MCQ → q.options = some opts →
      jsToUpper (jsTrim k) ∉ (["A", "B", "C", "D"] : List String) →
      getMCQText q (some k) = some k) ∧
    (k ≠ "" → q.type = QuestionType.MCQ → q.options = some opts →
      List.indexOf (jsToUpper (jsTrim k)) ["A", "B", "C", "D"] = i → i < 4 →
      opts.get? i = none →
      getMCQText q (some k) = some k) ∧
    (k ≠ "" → q.type = QuestionType.MCQ → q.options = some opts →
      List.indexOf (jsToUpper (jsTrim k)) ["A", "B", "C", "D"] = i → i < 4 →
      opts.get? i = some "" →
      getMCQText q (some k) = some k) ∧
    getMCQText qXYZW (some "b") = some "y" := by
  refine ⟨rfl, rfl, ?_, ?_, ?_, ?_, ?_, ?_, by decide⟩
  · intro hk ht
    simp only [getMCQText, if_neg hk]
    exact if_pos ht
  · intro hk hopt
    by_cases ht : q.type = QuestionType.MCQ
    · simp only [getMCQText, if_neg hk, hopt]
      rw [if_neg (by simp [ht])]
    · simp only [getMCQText, if_neg hk]
      exact if_pos ht
  · intro hk ht hopts hidx hlt hget hne
    exact getMCQText_resolve q k opts i opt hk ht hopts hidx hlt hget hne
  · intro hk ht hopts hmem
    have h4 : List.indexOf (jsToUpper (jsTrim k)) ["A", "B", "C", "D"] = 4 :=
      List.indexOf_of_not_mem hmem
    simp only [getMCQText, if_neg hk, hopts]
    rw [if_neg (by simp [ht])]
    simp only [h4]
    rw [if_neg (by omega)]
  · intro hk ht hopts hidx hlt hget
    simp only [getMCQText, if_neg hk, hopts]
    rw [if_neg (by simp [ht])]
    simp only [hidx]
    rw [if_pos hlt, hget]
  · intro hk ht hopts hidx hlt hget
    simp only [getMCQText, if_neg hk, hopts]
    rw [if_neg (by simp [ht])]
    simp only [hidx]
    rw [if_pos hlt, hget]
    exact if_pos rfl

/-- Claim C4, witness: the resolving branch instantiated on the
whitespace-padded lowercase token `" c "` (resolving to `"z"`); the
pass-through branch on a short-answer question; and the three
token-unchanged fallbacks — uppercase-trimmed token not found in
`["A","B","C","D"]`, found position with no options entry, and found
position holding an empty option text. -/
theorem getMCQText_spec_witness :
    getMCQText qXYZW (some " c ") = some "z" ∧
    getMCQText ⟨"qs", QuestionType.SHORT_ANSWER, "c", none, none, none⟩ (some "b") =
      some "b" ∧
    getMCQText qXYZW (some "e") = some "e" ∧
    getMCQText ⟨"qshort", QuestionType.MCQ, "c", some ["x"], none, none⟩ (some "b") =
      some "b" ∧
    getMCQText qEmptyFirst (some "A") = some "A" := by
  refine ⟨?_, ?_, ?_, ?_, ?_⟩
  · exact (getMCQText_spec qXYZW " c " ["x", "y", "z", "w"] 2 "z").2.2.2.2.1
      (by decide) rfl rfl (by decide) (by decide) rfl (by decide)
  · exact (getMCQText_spec ⟨"qs", QuestionType.SHORT_ANSWER, "c", none, none, none⟩
      "b" [] 0 "").2.2.1 (by decide) (by decide)
  · exact (getMCQText_spec qXYZW "e" ["x", "y", "z", "w"] 0 "").2.2.2.2.2.1
      (by decide) rfl rfl (by decide)
  · exact (getMCQText_spec ⟨"qshort", QuestionType.MCQ, "c", some ["x"], none, none⟩
      "b" ["x"] 1 "").2.2.2.2.2.2.1 (by decide) rfl rfl (by decide) (by decide) rfl
  · exact (getMCQText_spec qEmptyFirst "A" ["", "y", "z", "w"] 0 "").2.2.2.2.2.2.2.1
      (by decide) rfl rfl (by decide) (by decide) rfl

/-- Claim C10: the review screen's `getAnswerDisplay` resolves an MCQ
token to option text only when the stored token is exactly one of
`"A"`, `"B"`, `"C"`, `"D"` — case-sensitively and without trimming —
and otherwise displays the raw token; hence for a token that is not
exactly such a letter but uppercase-trims to one (a lowercase or
whitespace-padded key), it shows the raw token while the results
screen's `getMCQText` resolves the same token to the option text. -/
theorem getAnswerDisplay_case_sensitive (qs : List Question) (answers : StrMap)
    (qId : String) (q : Question) (k : String) (opts : List String) (i : Nat)
    (opt : String)
    (hfind : qs.find? (fun item => item.id = qId) = some q)
    (hans : lookupKey answers qId = some k)
    (hk : k ≠ "")
    (htype : q.type = QuestionType.MCQ)
    (hopts : q.options = some opts) :
    (k ∈ (["A", "B", "C", "D"] : List String) →
      getAnswerDisplay qs answers qId =
        AnswerDisplay.resolved k (opts.get? (List.indexOf k ["A", "B", "C", "D"]))) ∧
    (k ∉ (["A", "B", "C", "D"] : List String) →
      getAnswerDisplay qs answers qId = AnswerDisplay.raw k) ∧
    (k ∉ (["A", "B", "C", "D"] : List String) →
      List.indexOf (jsToUpper (jsTrim k)) ["A", "B", "C", "D"] = i → i < 4 →
      opts.get? i = some opt → opt ≠ "" → opt ≠ k →
      getAnswerDisplay qs answers qId = AnswerDisplay.raw k ∧
      getMCQText q (some k) = some opt ∧
      (some opt : Option String) ≠ some k) := by
  have hbase : getAnswerDisplay qs answers qId =
      (if List.indexOf k ["A", "B", "C", "D"] < 4 then
        AnswerDisplay.resolved k ((q.options.getD []).get? (List.indexOf k ["A", "B", "C", "D"]))
      else AnswerDisplay.raw k) := by
    simp only [getAnswerDisplay, hfind, hans, if_neg hk]
    rw [if_pos ⟨htype, by simp [hopts]⟩]
  have hraw : k ∉ (["A", "B", "C", "D"] : List String) →
      getAnswerDisplay qs answers qId = AnswerDisplay.raw k := by
    intro hmem
    have h4 : List.indexOf k ["A", "B", "C", "D"] = 4 := List.indexOf_of_not_mem hmem
    rw [hbase, h4, if_neg (by omega)]
  refine ⟨?_, hraw, ?_⟩
  · intro hmem
    have hlt : List.indexOf k ["A", "B", "C", "D"] < 4 := by
      simpa using List.indexOf_lt_length.mpr hmem
    rw [hbase, if_pos hlt, hopts]
    rfl
  · intro hmem hidx hlt hget hne hneq
    refine ⟨hraw hmem, ?_, by simpa using hneq⟩
    exact getMCQText_resolve q k opts i opt hk htype hopts hidx hlt hget hne

/-- Claim C10, witness: on the MCQ question `qXYZW` with the stored
lowercase token `"b"`, the review screen shows the raw token `"b"`
while the results screen resolves it to the option text `"y"`. -/
theorem getAnswerDisplay_case_sensitive_witness :
    getAnswerDisplay [qXYZW] [("qm", "b")] "qm" = AnswerDisplay.raw "b" ∧
    getMCQText qXYZW (some "b") = some "y" := by
  have h := getAnswerDisplay_case_sensitive [qXYZW] [("qm", "b")] "qm" qXYZW
    "b" ["x", "y", "z", "w"] 1 "y" (by decide) (by decide) (by decide) rfl rfl
  have h3 := h.2.2 (by decide) (by decide) (by decide) rfl (by decide) (by decide)
  exact ⟨h3.1, h3.2.1⟩

end SmartHomework
